import Mathlib

/-!
Verification of the short-live in-process TTL cache.

Shallow embedding conventions:
* JS `number` values (timestamps, thresholds, weights) are modelled as `ℚ`;
  every `ℚ` is finite, so `Number.isFinite` checks on plain rationals always
  pass, and non-finite JS values (`Infinity`) are modelled by `Option ℚ`
  with `none` standing for a non-finite value.
* Map keys and tag names are strings in the source; they are only ever
  compared for equality, so they are modelled as `ℕ` identifiers.
* The process-wide monitor snapshot (`_metrics`) is passed explicitly as an
  `Option ℚ` memory-utilization argument instead of being ambient state.
-/

/-- Entry status enum from src/src/types.ts (`ENTRY_STATUS`). -/
inductive ENTRY_STATUS where
  | fresh
  | stale
  | expired
deriving DecidableEq, Repr

/-- Tag invalidation record: `state._tags` maps each tag to
`[expiredAt, staleSinceAt]`, with 0 = never set (src/src/types.ts). -/
structure TagRecord where
  expiredAt : ℚ
  staleSinceAt : ℚ
deriving DecidableEq, Repr

/-- Cache entry tuple `[ [createdAt, expiresAt, staleExpiresAt], value, tags ]`
from src/src/types.ts, flattened into a structure. -/
structure CacheEntry where
  createdAt : ℚ
  expiresAt : ℚ
  staleExpiresAt : ℚ
  value : ℕ
  tags : List ℕ
deriving DecidableEq, Repr

/-- Purge mode `boolean | number` from src/src/types.ts. -/
inductive PurgeMode where
  | bool (b : Bool)
  | num (q : ℚ)
deriving DecidableEq, Repr

/-- JS truthiness of a `PurgeMode` value (`false` and `0` are falsy). -/
def PurgeMode.truthy : PurgeMode → Bool
  | .bool b => b
  | .num q => decide (q ≠ 0)

/-- Resource metric `"size" | "memory" | "higher" | "fixed"`. -/
inductive Metric where
  | size
  | memory
  | higher
  | fixed
deriving DecidableEq, Repr

/-- Purge evaluation context (`"get" | "sweep"`). -/
inductive PurgeContext where
  | get
  | sweep
deriving DecidableEq, Repr

/-- Runtime cache state (src/src/types.ts `CacheState`), restricted to the
fields the verified operations read.  `maxSize`/`maxMemorySize` default to
`none` = `Infinity`.  The `size` getter is derived from the store. -/
structure CacheState where
  store : List (ℕ × CacheEntry) := []
  _tags : List (ℕ × TagRecord) := []
  maxSize : Option ℚ := none
  maxMemorySize : Option ℚ := none
  purgeResourceMetric : Option Metric := none
  purgeStaleOnGet : PurgeMode := .bool false
  purgeStaleOnSweep : PurgeMode := .bool false
  defaultTtl : ℚ := 1800000
  defaultStaleWindow : ℚ := 0
  _maxAllowExpiredRatioVal : ℚ := 2/5
  _autoStartSweep : Bool := true
  _instanceIndexState : ℤ := -1
  _sweepWeight : ℚ := 0
  _sweepIter : Option (List (ℕ × CacheEntry)) := none
deriving DecidableEq, Repr

/-- Derived `size` getter: `state.store.size` (src/unnamed/part_002). -/
def CacheState.size (s : CacheState) : ℕ := s.store.length

/-- Modelled from the spec: applicability test of `_statusFromTags`
(src/src/utils/status-from-tags is absent from the sources; spec §4.1 step 1-2:
"A record only applies if its timestamp is strictly greater than the entry's
createdAt"; "If any applicable tag has expiredAt set, the entry is EXPIRED").
True iff some tag carried by the entry has a record whose `expiredAt` is set
(nonzero) and strictly later than the entry's creation. -/
def applicableExpired (reg : List (ℕ × TagRecord)) (entry : CacheEntry) : Bool :=
  entry.tags.any fun t =>
    match reg.lookup t with
    | some r => decide (r.expiredAt ≠ 0) && decide (entry.createdAt < r.expiredAt)
    | none => false

/-- Modelled from the spec: earliest applicable stale invalidation of
`_statusFromTags` (spec §4.1 step 3: "among applicable tags with staleSinceAt
set, take the earliest such timestamp — the strictest tag wins"). -/
def earliestApplicableStale (reg : List (ℕ × TagRecord)) (createdAt : ℚ) :
    List ℕ → Option ℚ
  | [] => none
  | t :: ts =>
    let rest := earliestApplicableStale reg createdAt ts
    match reg.lookup t with
    | some r =>
      if r.staleSinceAt ≠ 0 ∧ createdAt < r.staleSinceAt then
        match rest with
        | none => some r.staleSinceAt
        | some m => some (min r.staleSinceAt m)
      else rest
    | none => rest

/-- Modelled from the spec: `_statusFromTags` (implementation file missing from
the sources; only its caller `computeEntryStatus` survives).  Returns the
tag-derived status together with the earliest applicable stale-invalidation
timestamp (0 when there is none). -/
def _statusFromTags (reg : List (ℕ × TagRecord)) (entry : CacheEntry) :
    ENTRY_STATUS × ℚ :=
  if applicableExpired reg entry then (.expired, 0)
  else
    match earliestApplicableStale reg entry.createdAt entry.tags with
    | some m => (.stale, m)
    | none => (.fresh, 0)

/-- `computeEntryStatus` from src/unnamed/part_007 (src/cache/validators.ts),
translated line by line. -/
def computeEntryStatus (state : CacheState) (entry : CacheEntry) (now : ℚ) :
    ENTRY_STATUS :=
  let ts := _statusFromTags state._tags entry
  if ts.1 = .expired then .expired
  else
    let windowStale := entry.staleExpiresAt - entry.expiresAt
    if ts.1 = .stale ∧ 0 < entry.staleExpiresAt ∧
        now < ts.2 + windowStale ∧ now ≤ entry.staleExpiresAt then
      .stale
    else if now < entry.expiresAt then .fresh
    else if 0 < entry.staleExpiresAt ∧ now < entry.staleExpiresAt then .stale
    else .expired

example :
    computeEntryStatus
      { _tags := [(1, { expiredAt := 0, staleSinceAt := 600 })] }
      { createdAt := 0, expiresAt := 1000, staleExpiresAt := 6000,
        value := 0, tags := [1] }
      2000 = .stale := by
  norm_num [computeEntryStatus, _statusFromTags, applicableExpired,
    earliestApplicableStale]
  decide

example :
    computeEntryStatus
      { _tags := [(1, { expiredAt := 0, staleSinceAt := 600 })] }
      { createdAt := 0, expiresAt := 1000, staleExpiresAt := 6000,
        value := 0, tags := [1] }
      6001 = .expired := by
  norm_num [computeEntryStatus, _statusFromTags, applicableExpired,
    earliestApplicableStale]

example :
    computeEntryStatus
      { _tags := [(1, { expiredAt := 50, staleSinceAt := 0 })] }
      { createdAt := 150, expiresAt := 1000, staleExpiresAt := 0,
        value := 0, tags := [1] }
      250 = .fresh := by
  norm_num [computeEntryStatus, _statusFromTags, applicableExpired,
    earliestApplicableStale]
  decide

/-- `DEFAULT_PURGE_STALE_ON_GET_NO_LIMITS` (src/src/defaults.ts). -/
def DEFAULT_PURGE_STALE_ON_GET_NO_LIMITS : Bool := false

/-- `DEFAULT_PURGE_STALE_ON_SWEEP_NO_LIMITS` (src/src/defaults.ts). -/
def DEFAULT_PURGE_STALE_ON_SWEEP_NO_LIMITS : Bool := true

/-- `getSizeUtilization` from src/unnamed/part_011 (src/utils/purge-eval.ts):
`0` unless `maxSize` is finite positive and the store is non-empty, else
`min(1, size / maxSize)`. -/
def getSizeUtilization (s : CacheState) : ℚ :=
  match s.maxSize with
  | none => 0
  | some m => if m ≤ 0 ∨ s.size = 0 then 0 else min 1 ((s.size : ℚ) / m)

/-- `getMemoryUtilization` from src/unnamed/part_011: the monitor snapshot
memory utilization, or 0 when metrics are unavailable. -/
def getMemoryUtilization (memUtil : Option ℚ) : ℚ := memUtil.getD 0

/-- `computeResourceUsage` from src/unnamed/part_011, translated line by
line; `none` models the `null` return for a missing or `"fixed"` metric. -/
def computeResourceUsage (s : CacheState) (memUtil : Option ℚ) : Option ℚ :=
  match s.purgeResourceMetric with
  | none => none
  | some .fixed => none
  | some .size => some (getSizeUtilization s)
  | some .memory => some (getMemoryUtilization memUtil)
  | some .higher =>
      some (min 1 (max (getMemoryUtilization memUtil) (getSizeUtilization s)))

/-- `shouldPurge` from src/unnamed/part_011, translated line by line.  The
`Number.isNaN(userThreshold)` guard is omitted: `ℚ` has no NaN.  Note the
source tests `if (!usage)`, which is true both for `null` (metric absent or
`"fixed"`) and for a computed usage of `0`. -/
def shouldPurge (mode : PurgeMode) (s : CacheState) (memUtil : Option ℚ)
    (purgeContext : PurgeContext) : Bool :=
  match mode with
  | .bool b => b
  | .num userThreshold =>
    let defaultPurge :=
      match purgeContext with
      | .sweep => DEFAULT_PURGE_STALE_ON_SWEEP_NO_LIMITS
      | .get => DEFAULT_PURGE_STALE_ON_GET_NO_LIMITS
    match computeResourceUsage s memUtil with
    | none => defaultPurge
    | some usage =>
      if usage = 0 then defaultPurge
      else decide (max 0 (min 1 userThreshold) ≤ usage)

example :
    shouldPurge (.num (1/2)) { purgeResourceMetric := some .memory }
      (some (49/100)) .get = false := by
  norm_num [shouldPurge, computeResourceUsage, getMemoryUtilization]

example :
    shouldPurge (.num (1/2)) { purgeResourceMetric := some .memory }
      (some (1/2)) .get = true := by
  norm_num [shouldPurge, computeResourceUsage, getMemoryUtilization]

example :
    shouldPurge (.num (1/2))
      { purgeResourceMetric := some Metric.size, maxSize := some 100 }
      none .sweep = true := by
  norm_num [shouldPurge, computeResourceUsage, getSizeUtilization,
    CacheState.size, DEFAULT_PURGE_STALE_ON_SWEEP_NO_LIMITS]

/-- Modelled from the spec: `deleteKey` (src/cache/delete.ts is absent from
the sources; spec §6 lists the primitive `delete(key, reason)`).  Removes the
key's entry from the store; the deletion reason only feeds callbacks, which
are not modelled. -/
def deleteKey (s : CacheState) (key : ℕ) : CacheState :=
  { s with store := s.store.filter fun kv => kv.1 ≠ key }

/-- `getWithStatus` from src/src/cache/get.ts, translated line by line.
Returns the `[status, entry]` pair together with the possibly-mutated state.
The entry is captured before any deletion, exactly as in the source. -/
def getWithStatus (s : CacheState) (key : ℕ) (purgeMode : Option PurgeMode)
    (memUtil : Option ℚ) (now : ℚ) :
    (Option ENTRY_STATUS × Option CacheEntry) × CacheState :=
  match s.store.lookup key with
  | none => ((none, none), s)
  | some entry =>
    let status := computeEntryStatus s entry now
    if status = .fresh then ((some status, some entry), s)
    else if status = .stale then
      let purgeModeToUse := purgeMode.getD s.purgeStaleOnGet
      let s2 :=
        if shouldPurge purgeModeToUse s memUtil .get then deleteKey s key else s
      ((some status, some entry), s2)
    else
      ((some status, none), deleteKey s key)

/-- `get` from src/src/cache/get.ts: `entry ? entry[1] : undefined`, paired
with the state produced by `getWithStatus` (declared as `Cache.get` to avoid
clashing with the core `MonadState.get`). -/
def Cache.get (s : CacheState) (key : ℕ) (purgeMode : Option PurgeMode)
    (memUtil : Option ℚ) (now : ℚ) : Option ℕ × CacheState :=
  let r := getWithStatus s key purgeMode memUtil now
  (r.1.2.map CacheEntry.value, r.2)

/-- Result record of `_sweepOnce` (src/unnamed/part_012). -/
structure SweepOnceResult where
  processed : ℕ
  expiredCount : ℕ
  staleCount : ℕ
  ratioNum : ℚ
deriving DecidableEq, Repr

/-- Batch loop of `_sweepOnce` from src/unnamed/part_012 (fuel
`_maxKeysPerBatch`, iterator modelled as the list of not-yet-visited store
entries; deleting the entry under the cursor does not disturb a JS Map
iterator, so visiting a snapshot suffix is faithful).  Returns the mutated
state, the remaining iterator (`none` when the pass was exhausted and a new
pass over the store was installed), and the counters.  Note the stale branch
tests plain truthiness of `state.purgeStaleOnSweep`, not `shouldPurge`. -/
def _sweepLoop (s : CacheState) (iter : List (ℕ × CacheEntry)) (now : ℚ) :
    ℕ → CacheState × Option (List (ℕ × CacheEntry)) × ℕ × ℕ × ℕ
  | 0 => (s, some iter, 0, 0, 0)
  | fuel + 1 =>
    match iter with
    | [] => (s, none, 0, 0, 0)
    | (key, entry) :: rest =>
      let status := computeEntryStatus s entry now
      if status = .expired then
        let r := _sweepLoop (deleteKey s key) rest now fuel
        (r.1, r.2.1, r.2.2.1 + 1, r.2.2.2.1 + 1, r.2.2.2.2)
      else if status = .stale then
        let s2 := if s.purgeStaleOnSweep.truthy then deleteKey s key else s
        let r := _sweepLoop s2 rest now fuel
        (r.1, r.2.1, r.2.2.1 + 1, r.2.2.2.1, r.2.2.2.2 + 1)
      else
        let r := _sweepLoop s rest now fuel
        (r.1, r.2.1, r.2.2.1 + 1, r.2.2.2.1, r.2.2.2.2)

/-- `_sweepOnce` from src/unnamed/part_012, translated line by line (with the
current time passed explicitly instead of read from `Date.now()`). -/
def _sweepOnce (s : CacheState) (maxKeysPerBatch : ℕ) (now : ℚ) :
    SweepOnceResult × CacheState :=
  let iter := s._sweepIter.getD s.store
  let r := _sweepLoop s iter now maxKeysPerBatch
  let s2 := r.1
  let processed := r.2.2.1
  let expiredCount := r.2.2.2.1
  let staleCount := r.2.2.2.2
  let newIter :=
    match r.2.1 with
    | some remaining => some remaining
    | none => some s2.store
  let expiredStaleCount := if s.purgeStaleOnSweep.truthy then staleCount else 0
  ({ processed := processed, expiredCount := expiredCount,
     staleCount := staleCount,
     ratioNum := if 0 < processed then
       ((expiredCount : ℚ) + expiredStaleCount) / processed else 0 },
   { s2 with _sweepIter := newIter })

/-- `OPTIMAL_SWEEP_INTERVAL` = 2000 ms (src/src/defaults.ts). -/
def OPTIMAL_SWEEP_INTERVAL : ℚ := 2000

/-- `WORST_SWEEP_INTERVAL` = 200 ms (src/src/defaults.ts). -/
def WORST_SWEEP_INTERVAL : ℚ := 200

/-- `WORST_SWEEP_TIME_BUDGET` = 40 ms (src/src/defaults.ts). -/
def WORST_SWEEP_TIME_BUDGET : ℚ := 40

/-- `OPTIMAL_SWEEP_TIME_BUDGET_IF_NOTE_METRICS_AVAILABLE` = 15 ms
(src/src/defaults.ts). -/
def OPTIMAL_SWEEP_TIME_BUDGET_IF_NOTE_METRICS_AVAILABLE : ℚ := 15

/-- `MAX_KEYS_PER_BATCH` = 1000 (src/src/defaults.ts). -/
def MAX_KEYS_PER_BATCH : ℚ := 1000

/-- `DEFAULT_MEMORY_WEIGHT` = 10 (src/src/defaults.ts; declared but never
passed to `calculateOptimalSweepParams` by any caller). -/
def DEFAULT_MEMORY_WEIGHT : ℚ := 10

/-- `DEFAULT_CPU_WEIGHT` = 8.5 (src/src/defaults.ts; likewise unused). -/
def DEFAULT_CPU_WEIGHT : ℚ := 17/2

/-- `DEFAULT_LOOP_WEIGHT` = 6.5 (src/src/defaults.ts; likewise unused). -/
def DEFAULT_LOOP_WEIGHT : ℚ := 13/2

/-- Monitor snapshot consumed by the sweep scheduler
(src/utils/process-monitor `PerformanceMetrics`, normalized members only). -/
structure PerformanceMetrics where
  memoryUtilization : ℚ
  cpuUtilization : ℚ
  loopUtilization : ℚ
deriving DecidableEq, Repr

/-- Modelled from the spec: the `interpolate` utility (src/utils/interpolate
is absent from the sources; spec §4.3 steps 2-3 call for linear interpolation
between the two pacing points). -/
def interpolate (value fromStart fromEnd toStart toEnd : ℚ) : ℚ :=
  toStart + (value - fromStart) / (fromEnd - fromStart) * (toEnd - toStart)

/-- Result of `calculateOptimalSweepParams` (src/unnamed/part_014). -/
structure OptimalSweepParams where
  sweepIntervalMs : ℚ
  sweepTimeBudgetMs : ℚ
deriving DecidableEq, Repr

/-- `calculateOptimalSweepParams` from src/unnamed/part_014
(src/sweep/calculate-optimal-sweep-params.ts), translated line by line; the
weight arguments default to 1 in the source (`weights.memory ?? 1`, ...), so
callers that pass no weights get 1/1/1. -/
def calculateOptimalSweepParams (metrics : Option PerformanceMetrics)
    (memoryWeight cpuWeight loopWeight : ℚ) : OptimalSweepParams :=
  let memoryUtilization := (metrics.map PerformanceMetrics.memoryUtilization).getD 0
  let cpuUtilizationRaw := (metrics.map PerformanceMetrics.cpuUtilization).getD 0
  let loopUtilizationRaw := (metrics.map PerformanceMetrics.loopUtilization).getD 0
  let cpuUtilization := 1 - cpuUtilizationRaw
  let loopUtilization := 1 - loopUtilizationRaw
  let weightedSum := memoryUtilization * memoryWeight +
    cpuUtilization * cpuWeight + loopUtilization * loopWeight
  let totalWeight := memoryWeight + cpuWeight + loopWeight
  let r := min 1 (max 0 (weightedSum / totalWeight))
  { sweepIntervalMs :=
      interpolate r 0 1 OPTIMAL_SWEEP_INTERVAL WORST_SWEEP_INTERVAL,
    sweepTimeBudgetMs := interpolate r 0 1 0 WORST_SWEEP_TIME_BUDGET }

/-- Pacing chosen by one sweep cycle (src/unnamed/part_013 lines 54-58): the
metrics-unavailable defaults, overwritten by `calculateOptimalSweepParams`
(called with no weights, hence 1/1/1) when a monitor snapshot exists. -/
def sweepCycleParams (metrics : Option PerformanceMetrics) : OptimalSweepParams :=
  match metrics with
  | none =>
    { sweepIntervalMs := OPTIMAL_SWEEP_INTERVAL,
      sweepTimeBudgetMs := OPTIMAL_SWEEP_TIME_BUDGET_IF_NOTE_METRICS_AVAILABLE }
  | some m => calculateOptimalSweepParams (some m) 1 1 1

/-- Per-batch key quota of one sweep cycle (src/unnamed/part_013 lines
66-67): `MAX_KEYS_PER_BATCH / instanceCount` in round-robin mode (total
weight ≤ 0), the full `MAX_KEYS_PER_BATCH` otherwise.  (With zero registered
instances JS would yield `Infinity`; the claims only concern a non-empty
registry.) -/
def sweepMaxKeysPerBatch (totalSweepWeight : ℚ) (instanceCount : ℕ) : ℚ :=
  if totalSweepWeight ≤ 0 then MAX_KEYS_PER_BATCH / instanceCount
  else MAX_KEYS_PER_BATCH

/-- Weighted-selection scan of `_selectInstanceToSweep`
(src/unnamed/part_015): subtract each instance's `_sweepWeight` from the
threshold in registration order and pick the first instance where the
running total drops to ≤ 0; `dflt` is the pre-loop fallback
(`_instancesCache[0]`). -/
def weightedScan (dflt : Option CacheState) (threshold : ℚ) :
    List CacheState → Option CacheState
  | [] => dflt
  | inst :: rest =>
    let threshold2 := threshold - inst._sweepWeight
    if threshold2 ≤ 0 then some inst else weightedScan dflt threshold2 rest

/-- `_selectInstanceToSweep` from src/unnamed/part_015, translated line by
line with the global `_instancesCache` passed explicitly and `Math.random()`
replaced by the explicit draw `rand` (so `rand * totalSweepWeight` is the
threshold).  In the round-robin branch the source's `instanceToSweep = null`
assignment for `batchSweep > length` is immediately overwritten by
`instanceToSweep = _instancesCache[batchSweep - 1]`, so the returned value is
simply the (batchSweep − 1)-th instance, `none` when out of range. -/
def _selectInstanceToSweep (instances : List CacheState)
    (totalSweepWeight : ℚ) (batchSweep : ℕ) (rand : ℚ) : Option CacheState :=
  if totalSweepWeight ≤ 0 then
    instances.get? (batchSweep - 1)
  else
    weightedScan instances.head? (rand * totalSweepWeight) instances

/-- `DEFAULT_TTL` = 30 minutes (src/src/defaults.ts). -/
def DEFAULT_TTL : ℚ := 1800000

/-- `DEFAULT_STALE_WINDOW` = 0 (src/src/defaults.ts). -/
def DEFAULT_STALE_WINDOW : ℚ := 0

/-- `DEFAULT_MAX_EXPIRED_RATIO` = 0.4 (src/src/defaults.ts; `_VAL` suffix
added to the Lean name). -/
def DEFAULT_MAX_EXPIRED_RATIO_VAL : ℚ := 2/5

/-- `DEFAULT_PURGE_STALE_ON_GET_THRESHOLD` = 0.8 (src/src/defaults.ts). -/
def DEFAULT_PURGE_STALE_ON_GET_THRESHOLD : ℚ := 4/5

/-- `DEFAULT_PURGE_STALE_ON_SWEEP_THRESHOLD` = 0.5 (src/src/defaults.ts). -/
def DEFAULT_PURGE_STALE_ON_SWEEP_THRESHOLD : ℚ := 1/2

/-- `isValidLimit` from src/unnamed/part_006 (src/cache/resolve-purge-config):
`Number.isFinite(value) && value > 0`, with `none` = non-finite. -/
def isValidLimit : Option ℚ → Bool
  | some v => decide (0 < v)
  | none => false

/-- `checkRequiredLimits` from src/unnamed/part_006, translated line by line. -/
def checkRequiredLimits (metric : Metric) (hasSizeLimit hasMemoryLimit : Bool) :
    Bool :=
  match metric with
  | .fixed => false
  | .size => hasSizeLimit
  | .memory => hasMemoryLimit
  | .higher => hasSizeLimit && hasMemoryLimit

/-- `resolvePurgeMode` from src/unnamed/part_006, translated line by line
(the `console.warn` side effect is dropped). -/
def resolvePurgeMode (maxSize maxMemorySize : Option ℚ) (metric : Metric)
    (thresholdFallback : ℚ) (booleanFallback : Bool)
    (userValue : Option PurgeMode) : PurgeMode :=
  let hasSizeLimit := isValidLimit maxSize
  let hasMemoryLimit := isValidLimit maxMemorySize
  let hasRequiredLimits := checkRequiredLimits metric hasSizeLimit hasMemoryLimit
  let fallback : PurgeMode :=
    if hasRequiredLimits then .num thresholdFallback else .bool booleanFallback
  match userValue with
  | some uv =>
    match uv with
    | .num q => if hasRequiredLimits then .num q else fallback
    | .bool b => .bool b
  | none => fallback

/-- `resolvePurgeResourceMetric` from src/unnamed/part_006 (backend branch:
`__BROWSER__` is false), translated line by line. -/
def resolvePurgeResourceMetric (maxSize maxMemorySize : Option ℚ) : Metric :=
  let hasSizeLimit := isValidLimit maxSize
  let hasMemoryLimit := isValidLimit maxMemorySize
  if hasSizeLimit && hasMemoryLimit then .higher
  else if hasMemoryLimit then .memory
  else if hasSizeLimit then .size
  else .fixed

/-- `resolvePurgeStaleOnGet` from src/unnamed/part_006. -/
def resolvePurgeStaleOnGet (maxSize maxMemorySize : Option ℚ) (metric : Metric)
    (userValue : Option PurgeMode) : PurgeMode :=
  resolvePurgeMode maxSize maxMemorySize metric
    DEFAULT_PURGE_STALE_ON_GET_THRESHOLD DEFAULT_PURGE_STALE_ON_GET_NO_LIMITS
    userValue

/-- `resolvePurgeStaleOnSweep` from src/unnamed/part_006. -/
def resolvePurgeStaleOnSweep (maxSize maxMemorySize : Option ℚ) (metric : Metric)
    (userValue : Option PurgeMode) : PurgeMode :=
  resolvePurgeMode maxSize maxMemorySize metric
    DEFAULT_PURGE_STALE_ON_SWEEP_THRESHOLD DEFAULT_PURGE_STALE_ON_SWEEP_NO_LIMITS
    userValue

/-- `CacheOptions` (src/src/types.ts): every field optional; `none` on
`maxSize`/`maxMemorySize` coincides with their `Infinity` defaults. -/
structure CacheOptions where
  defaultTtl : Option ℚ := none
  maxSize : Option ℚ := none
  maxMemorySize : Option ℚ := none
  _maxAllowExpiredRatioVal : Option ℚ := none
  defaultStaleWindow : Option ℚ := none
  purgeStaleOnGet : Option PurgeMode := none
  purgeStaleOnSweep : Option PurgeMode := none
  purgeResourceMetric : Option Metric := none
  _autoStartSweep : Option Bool := none
deriving DecidableEq, Repr

/-- Observable scheduler effects of instance construction. -/
inductive CreateEffect where
  | startSweepCall
deriving DecidableEq, Repr

/-- `createCache` from src/unnamed/part_002 (src/cache/create-cache.ts),
translated line by line; `registryLen` is the length of the global
`_instancesCache` before the push, so the pushed instance's index is
`registryLen` (`push(state) - 1`).  The returned effect list records the
scheduler calls the constructor makes: the source invokes `startSweep(state)`
unconditionally on its last line, with no test of `_autoStartSweep`. -/
def createCache (options : CacheOptions) (registryLen : ℕ) :
    CacheState × List CreateEffect :=
  let maxSize := options.maxSize
  let maxMemorySize := options.maxMemorySize
  let resolvedPurgeResourceMetric :=
    options.purgeResourceMetric.getD
      (resolvePurgeResourceMetric maxSize maxMemorySize)
  let resolvedPurgeStaleOnGet :=
    resolvePurgeStaleOnGet maxSize maxMemorySize resolvedPurgeResourceMetric
      options.purgeStaleOnGet
  let resolvedPurgeStaleOnSweep :=
    resolvePurgeStaleOnSweep maxSize maxMemorySize resolvedPurgeResourceMetric
      options.purgeStaleOnSweep
  let state : CacheState :=
    { store := []
      _sweepIter := none
      maxSize := maxSize
      maxMemorySize := maxMemorySize
      defaultTtl := options.defaultTtl.getD DEFAULT_TTL
      defaultStaleWindow := options.defaultStaleWindow.getD DEFAULT_STALE_WINDOW
      purgeStaleOnGet := resolvedPurgeStaleOnGet
      purgeStaleOnSweep := resolvedPurgeStaleOnSweep
      purgeResourceMetric := some resolvedPurgeResourceMetric
      _maxAllowExpiredRatioVal :=
        options._maxAllowExpiredRatioVal.getD DEFAULT_MAX_EXPIRED_RATIO_VAL
      _autoStartSweep := options._autoStartSweep.getD true
      _instanceIndexState := registryLen
      _sweepWeight := 0
      _tags := [] }
  (state, [CreateEffect.startSweepCall])

/-- `CacheSetOrUpdateInput` from src/src/cache/set.ts; `none` models
`null`/`undefined` on the required fields. -/
structure CacheSetOrUpdateInput where
  key : Option ℕ
  value : Option ℕ
  ttlMs : Option ℚ
  staleTTLMs : Option ℚ
deriving DecidableEq, Repr

/-- Entry record `{ v, e, se }` produced by src/src/cache/set.ts. -/
structure StoredEntry where
  v : ℕ
  e : ℚ
  se : ℚ
deriving DecidableEq, Repr

/-- `setOrUpdate` from src/src/cache/set.ts, translated line by line:
`none` = the function throws (missing key/value/ttlMs); the
`Number.isFinite` checks always pass over `ℚ`; `ttlMs ?? state.defaultTTL`
can never fall back because a missing `ttlMs` has already thrown; the
`staleTTL && staleTTL > 0` test coincides with `0 < staleTTL` on numbers. -/
def setOrUpdate (defaultTTL defaultStaleTTL : ℚ)
    (input : CacheSetOrUpdateInput) (now : ℚ) : Option StoredEntry :=
  match input.key, input.value, input.ttlMs with
  | some _, some v, some ttlMs =>
    let ttl := (some ttlMs).getD defaultTTL
    let staleTTL := input.staleTTLMs.getD defaultStaleTTL
    some { v := v, e := now + ttl,
           se := if 0 < staleTTL then now + staleTTL else 0 }
  | _, _, _ => none

lemma applicableExpired_nil (entry : CacheEntry) :
    applicableExpired [] entry = false := by
  simp [applicableExpired, List.lookup]

lemma earliestApplicableStale_nil (c : ℚ) (tags : List ℕ) :
    earliestApplicableStale [] c tags = none := by
  induction tags with
  | nil => rfl
  | cons t ts ih => simp [earliestApplicableStale, List.lookup, ih]

lemma applicableExpired_eq_false (reg : List (ℕ × TagRecord))
    (entry : CacheEntry)
    (h : ∀ t r, t ∈ entry.tags → reg.lookup t = some r →
      r.expiredAt ≤ entry.createdAt) :
    applicableExpired reg entry = false := by
  unfold applicableExpired
  rw [List.any_eq_false]
  intro t ht
  cases hl : reg.lookup t with
  | none => simp [hl]
  | some r =>
    have hle := h t r ht hl
    simp [hl, not_lt.mpr hle]

lemma earliestApplicableStale_eq_none (reg : List (ℕ × TagRecord)) (c : ℚ)
    (tags : List ℕ)
    (h : ∀ t r, t ∈ tags → reg.lookup t = some r → r.staleSinceAt ≤ c) :
    earliestApplicableStale reg c tags = none := by
  induction tags with
  | nil => rfl
  | cons t ts ih =>
    have hrest := ih fun t2 r ht2 hl2 => h t2 r (List.mem_cons_of_mem _ ht2) hl2
    unfold earliestApplicableStale
    cases hl : reg.lookup t with
    | none => simpa [hl] using hrest
    | some r =>
      have hle := h t r (List.mem_cons_self t ts) hl
      simp [hl, hrest, not_lt.mpr hle]

/-- C1: for every cache state (tag registry), entry and time `now`, if some
tag carried by the entry has an applicable expired-invalidation record
(`expiredAt` set and strictly later than the entry's creation), then
`computeEntryStatus` returns EXPIRED, regardless of the entry's own
`expiresAt`/`staleExpiresAt` — in particular also when `now < expiresAt`. -/
theorem claim_C1 (s : CacheState) (entry : CacheEntry) (now : ℚ)
    (h : applicableExpired s._tags entry = true) :
    computeEntryStatus s entry now = ENTRY_STATUS.expired := by
  simp [computeEntryStatus, _statusFromTags, h]

/-- C1 witness: a tag expired at 500 on an entry created at 0 whose own
expiry is far in the future; at `now = 700 < expiresAt = 10000` the status is
EXPIRED. -/
theorem claim_C1_witness :
    applicableExpired [(1, { expiredAt := 500, staleSinceAt := 0 })]
      { createdAt := 0, expiresAt := 10000, staleExpiresAt := 20000,
        value := 3, tags := [1] } = true ∧
    computeEntryStatus { _tags := [(1, { expiredAt := 500, staleSinceAt := 0 })] }
      { createdAt := 0, expiresAt := 10000, staleExpiresAt := 20000,
        value := 3, tags := [1] } 700 = ENTRY_STATUS.expired := by
  refine ⟨by decide, ?_⟩
  exact claim_C1 _ _ _ (by decide)

/-- C2: with `window = staleExpiresAt - expiresAt`, if no applicable tag is
expired, the earliest applicable tag stale-invalidation time is `t`, the
entry supports a stale window (`staleExpiresAt > 0`), `now < t + window` and
`now ≤ staleExpiresAt`, then `computeEntryStatus` returns STALE; and in the
concrete scenario (ttl 1000, stale window 5000, tag marked stale at
createdAt+600) the entry is STALE at createdAt+2000 and EXPIRED at
createdAt+6001, for every wall-clock creation time `c ≥ 0`. -/
theorem claim_C2 (s : CacheState) (entry : CacheEntry) (now t : ℚ)
    (hA : applicableExpired s._tags entry = false)
    (hE : earliestApplicableStale s._tags entry.createdAt entry.tags = some t)
    (hS : 0 < entry.staleExpiresAt)
    (hW : now < t + (entry.staleExpiresAt - entry.expiresAt))
    (hC : now ≤ entry.staleExpiresAt) :
    computeEntryStatus s entry now = ENTRY_STATUS.stale ∧
    (∀ c : ℚ, 0 ≤ c →
      computeEntryStatus
        { _tags := [(1, { expiredAt := 0, staleSinceAt := c + 600 })] }
        { createdAt := c, expiresAt := c + 1000, staleExpiresAt := c + 6000,
          value := 0, tags := [1] } (c + 2000) = ENTRY_STATUS.stale ∧
      computeEntryStatus
        { _tags := [(1, { expiredAt := 0, staleSinceAt := c + 600 })] }
        { createdAt := c, expiresAt := c + 1000, staleExpiresAt := c + 6000,
          value := 0, tags := [1] } (c + 6001) = ENTRY_STATUS.expired) := by
  constructor
  · simp only [computeEntryStatus, _statusFromTags, hA, hE]
    simp [hS, hW, hC]
  · intro c hc
    have hexp : applicableExpired
        [(1, { expiredAt := 0, staleSinceAt := c + 600 })]
        { createdAt := c, expiresAt := c + 1000, staleExpiresAt := c + 6000,
          value := 0, tags := [1] } = false := by
      simp [applicableExpired, List.lookup]
    have hz : c + 600 ≠ 0 := by linarith
    have hst : earliestApplicableStale
        [(1, { expiredAt := 0, staleSinceAt := c + 600 })] c [1]
        = some (c + 600) := by
      simp [earliestApplicableStale, List.lookup, hz]
    constructor
    · simp only [computeEntryStatus, _statusFromTags, hexp, hst]
      have h1 : c + 2000 < c + 600 + (c + 6000 - (c + 1000)) := by linarith
      have h2 : c + 2000 ≤ c + 6000 := by linarith
      have h4 : (0:ℚ) < c + 6000 := by linarith
      simp [h1, h2, h4]
      intro h6
      norm_num
    · simp only [computeEntryStatus, _statusFromTags, hexp, hst]
      have h1 : ¬ (c + 6001 ≤ c + 6000) := by linarith
      have h2 : ¬ (c + 6001 < c + 1000) := by linarith
      have h3 : ¬ (c + 6001 < c + 6000) := by linarith
      simp [h1, h2, h3]

/-- C2 witness: the spec scenario at creation time 0 — tag marked stale at
600, entry ttl 1000 with stale ceiling 6000: STALE at 2000, EXPIRED at
6001. -/
theorem claim_C2_witness :
    computeEntryStatus { _tags := [(1, { expiredAt := 0, staleSinceAt := 600 })] }
      { createdAt := 0, expiresAt := 1000, staleExpiresAt := 6000,
        value := 0, tags := [1] } 2000 = ENTRY_STATUS.stale ∧
    computeEntryStatus { _tags := [(1, { expiredAt := 0, staleSinceAt := 600 })] }
      { createdAt := 0, expiresAt := 1000, staleExpiresAt := 6000,
        value := 0, tags := [1] } 6001 = ENTRY_STATUS.expired := by
  have h := claim_C2
    { _tags := [(1, { expiredAt := 0, staleSinceAt := 600 })] }
    { createdAt := 0, expiresAt := 1000, staleExpiresAt := 6000,
      value := 0, tags := [1] }
    2000 600 (by decide) (by decide) (by decide) (by norm_num) (by decide)
  have h2 := h.2 0 le_rfl
  norm_num at h2
  exact ⟨h.1, h2.2⟩

/-- C5: a tag record whose timestamps are not strictly later than the entry's
creation never affects the status — the status equals the one computed with
an empty tag registry; and for a tag invalidated (expired) at time `T` and an
entry created at `T + 100` carrying that tag with an unexpired TTL
(`ttl > 100`), the status at `T + 200` is FRESH. -/
theorem claim_C5 (s : CacheState) (entry : CacheEntry) (now : ℚ) :
    ((∀ t r, t ∈ entry.tags → s._tags.lookup t = some r →
        r.expiredAt ≤ entry.createdAt ∧ r.staleSinceAt ≤ entry.createdAt) →
      computeEntryStatus s entry now =
        computeEntryStatus { s with _tags := [] } entry now) ∧
    (∀ T ttl stal : ℚ, ∀ v tg : ℕ, 0 ≤ T → 100 < ttl →
      computeEntryStatus
        { _tags := [(tg, { expiredAt := T, staleSinceAt := 0 })] }
        { createdAt := T + 100, expiresAt := T + 100 + ttl,
          staleExpiresAt := stal, value := v, tags := [tg] }
        (T + 200) = ENTRY_STATUS.fresh) := by
  constructor
  · intro h
    have hA : applicableExpired s._tags entry = false :=
      applicableExpired_eq_false s._tags entry fun t r ht hl => (h t r ht hl).1
    have hE : earliestApplicableStale s._tags entry.createdAt entry.tags = none :=
      earliestApplicableStale_eq_none s._tags entry.createdAt entry.tags
        fun t r ht hl => (h t r ht hl).2
    simp only [computeEntryStatus, _statusFromTags, hA, hE,
      applicableExpired_nil, earliestApplicableStale_nil]
  · intro T ttl stal v tg hT httl
    have hA : applicableExpired
        [(tg, { expiredAt := T, staleSinceAt := 0 })]
        { createdAt := T + 100, expiresAt := T + 100 + ttl,
          staleExpiresAt := stal, value := v, tags := [tg] } = false := by
      apply applicableExpired_eq_false
      intro t r ht hl
      simp only [List.mem_singleton] at ht
      subst ht
      simp [List.lookup] at hl
      subst hl
      simp
    have hE : earliestApplicableStale
        [(tg, { expiredAt := T, staleSinceAt := 0 })] (T + 100) [tg] = none := by
      apply earliestApplicableStale_eq_none
      intro t r ht hl
      simp only [List.mem_singleton] at ht
      subst ht
      simp [List.lookup] at hl
      subst hl
      simp
      linarith
    simp only [computeEntryStatus, _statusFromTags, hA, hE]
    have hfresh : T + 200 < T + 100 + ttl := by linarith
    simp [hfresh]

/-- C5 witness: tag expired at T = 50, entry created at 150 with ttl 1000;
at time 250 the entry is FRESH (the tag predates the entry). -/
theorem claim_C5_witness :
    computeEntryStatus
      { _tags := [(1, { expiredAt := 50, staleSinceAt := 0 })] }
      { createdAt := 150, expiresAt := 1150, staleExpiresAt := 0,
        value := 0, tags := [1] } 250 = ENTRY_STATUS.fresh := by
  have h := (claim_C5 { } ⟨0, 0, 0, 0, []⟩ 0).2
    50 1000 0 0 1 (by norm_num) (by norm_num)
  norm_num at h
  exact h

/-- C3 counterexample: with metric `"size"`, a positive `maxSize` and an
empty store, the computed usage is *available* and equals 0, yet
`shouldPurge` with numeric directive 0.5 in sweep context returns the
boolean sweep default `true` instead of `0 ≥ 0.5 = false`: the source's
`if (!usage)` treats usage 0 like unavailable usage. -/
theorem claim_C3_counterexample :
    computeResourceUsage
      { purgeResourceMetric := some Metric.size, maxSize := some 100 } none
      = some 0 ∧
    shouldPurge (.num (1/2))
      { purgeResourceMetric := some Metric.size, maxSize := some 100 } none
      .sweep = true ∧
    ¬ (max 0 (min 1 ((1:ℚ)/2)) ≤ 0) := by
  refine ⟨?_, ?_, ?_⟩
  · norm_num [computeResourceUsage, getSizeUtilization, CacheState.size]
  · norm_num [shouldPurge, computeResourceUsage, getSizeUtilization,
      CacheState.size, DEFAULT_PURGE_STALE_ON_SWEEP_NO_LIMITS]
  · norm_num

/-- C3 (amended): `shouldPurge` maps `false` to false and `true` to true; a
numeric directive compares `usage ≥ clamp(mode, 0, 1)` whenever the computed
usage is available *and nonzero*; when usage is unavailable — or computes to
exactly 0, which the source's falsy test conflates with unavailable — it
falls back to the context's boolean default (false for get-context, true for
sweep-context). -/
theorem claim_C3 (s : CacheState) (memUtil : Option ℚ) (ctx : PurgeContext)
    (q : ℚ) :
    shouldPurge (.bool false) s memUtil ctx = false ∧
    shouldPurge (.bool true) s memUtil ctx = true ∧
    (∀ u, computeResourceUsage s memUtil = some u → u ≠ 0 →
      shouldPurge (.num q) s memUtil ctx = decide (max 0 (min 1 q) ≤ u)) ∧
    ((computeResourceUsage s memUtil = none ∨
        computeResourceUsage s memUtil = some 0) →
      shouldPurge (.num q) s memUtil ctx = decide (ctx = .sweep)) := by
  refine ⟨rfl, rfl, ?_, ?_⟩
  · intro u hu hz
    simp only [shouldPurge, hu]
    simp [hz]
  · intro h
    cases h with
    | inl h =>
      simp only [shouldPurge, h]
      cases ctx <;> simp [DEFAULT_PURGE_STALE_ON_GET_NO_LIMITS,
        DEFAULT_PURGE_STALE_ON_SWEEP_NO_LIMITS]
    | inr h =>
      simp only [shouldPurge, h]
      cases ctx <;> simp [DEFAULT_PURGE_STALE_ON_GET_NO_LIMITS,
        DEFAULT_PURGE_STALE_ON_SWEEP_NO_LIMITS]

/-- C3 witness: metric `"size"` with `maxSize = 100`: at 49 live entries
(usage 0.49) a 0.5 directive does not purge on get, at 50 live entries
(usage 0.50) it does. -/
theorem claim_C3_witness :
    shouldPurge (.num (1/2))
      { purgeResourceMetric := some Metric.size, maxSize := some 100,
        store := (List.range 49).map fun i => (i, ⟨0, 1, 0, 0, []⟩) } none
      .get = false ∧
    shouldPurge (.num (1/2))
      { purgeResourceMetric := some Metric.size, maxSize := some 100,
        store := (List.range 50).map fun i => (i, ⟨0, 1, 0, 0, []⟩) } none
      .get = true := by
  constructor
  · have h := (claim_C3
      { purgeResourceMetric := some Metric.size, maxSize := some 100,
        store := (List.range 49).map fun i => (i, ⟨0, 1, 0, 0, []⟩) }
      none .get (1/2)).2.2.1 (49/100)
      (by norm_num [computeResourceUsage, getSizeUtilization, CacheState.size])
      (by norm_num)
    rw [h]
    norm_num
  · have h := (claim_C3
      { purgeResourceMetric := some Metric.size, maxSize := some 100,
        store := (List.range 50).map fun i => (i, ⟨0, 1, 0, 0, []⟩) }
      none .get (1/2)).2.2.1 (1/2)
      (by norm_num [computeResourceUsage, getSizeUtilization, CacheState.size])
      (by norm_num)
    rw [h]
    norm_num

/-- C4: the sweep batch (`_sweepOnce`, src/unnamed/part_012) tests plain
truthiness of `state.purgeStaleOnSweep` instead of evaluating `shouldPurge`
with the sweep context.  Failing input: numeric directive 1 (threshold
100 %), metric `"size"`, `maxSize = 100`, one stale entry (usage 1 % — far
below threshold, so `shouldPurge` is false), yet the batch deletes the stale
entry (and counts it), contradicting the claim and the repository's own
tests (`purgeStaleOnSweep: 0.5` must preserve stale entries below the
threshold, tests/purge-strategy.test.ts). -/
theorem claim_C4_bug :
    shouldPurge (.num 1)
      { store := [(7, ⟨0, 10, 100, 3, []⟩)], purgeStaleOnSweep := .num 1,
        purgeResourceMetric := some Metric.size, maxSize := some 100 }
      none .sweep = false ∧
    computeEntryStatus
      { store := [(7, ⟨0, 10, 100, 3, []⟩)], purgeStaleOnSweep := .num 1,
        purgeResourceMetric := some Metric.size, maxSize := some 100 }
      ⟨0, 10, 100, 3, []⟩ 50 = ENTRY_STATUS.stale ∧
    ((_sweepOnce
      { store := [(7, ⟨0, 10, 100, 3, []⟩)], purgeStaleOnSweep := .num 1,
        purgeResourceMetric := some Metric.size, maxSize := some 100 }
      1000 50).2.store.lookup 7 = none) ∧
    (_sweepOnce
      { store := [(7, ⟨0, 10, 100, 3, []⟩)], purgeStaleOnSweep := .num 1,
        purgeResourceMetric := some Metric.size, maxSize := some 100 }
      1000 50).1.staleCount = 1 := by
  refine ⟨?_, by decide, by decide, by decide⟩
  norm_num [shouldPurge, computeResourceUsage, getSizeUtilization,
    CacheState.size]

/-- C6 counterexample: the sweep cycle passes no weights, so
`calculateOptimalSweepParams` uses 1/1/1, not the declared 10/8.5/6.5
defaults, and its time-budget interpolation starts at 0, not at the 15 ms
metrics-unavailable default.  At metrics (mem 0, cpu 1, loop 1) the combined
ratio is 0 and the code's budget is 0 ms (not ≥ 15); at metrics (1, 1, 1)
the code's interval is 1400 ms while the claimed 10/8.5/6.5 weighting would
give ratio 10/25 = 0.4 and interval 1280 ms. -/
theorem claim_C6_counterexample :
    (sweepCycleParams (some ⟨0, 1, 1⟩)).sweepTimeBudgetMs = 0 ∧
    ¬ (OPTIMAL_SWEEP_TIME_BUDGET_IF_NOTE_METRICS_AVAILABLE ≤ (0:ℚ)) ∧
    (sweepCycleParams (some ⟨1, 1, 1⟩)).sweepIntervalMs = 1400 ∧
    (DEFAULT_MEMORY_WEIGHT * 1 + DEFAULT_CPU_WEIGHT * 0 + DEFAULT_LOOP_WEIGHT * 0)
      / (DEFAULT_MEMORY_WEIGHT + DEFAULT_CPU_WEIGHT + DEFAULT_LOOP_WEIGHT)
      = 2/5 ∧
    interpolate (2/5) 0 1 OPTIMAL_SWEEP_INTERVAL WORST_SWEEP_INTERVAL = 1280 ∧
    (1400:ℚ) ≠ 1280 := by
  refine ⟨?_, ?_, ?_, ?_, ?_, by norm_num⟩
  · norm_num [sweepCycleParams, calculateOptimalSweepParams, interpolate,
      OPTIMAL_SWEEP_INTERVAL, WORST_SWEEP_INTERVAL, WORST_SWEEP_TIME_BUDGET]
  · norm_num [OPTIMAL_SWEEP_TIME_BUDGET_IF_NOTE_METRICS_AVAILABLE]
  · norm_num [sweepCycleParams, calculateOptimalSweepParams, interpolate,
      OPTIMAL_SWEEP_INTERVAL, WORST_SWEEP_INTERVAL, WORST_SWEEP_TIME_BUDGET]
  · norm_num [DEFAULT_MEMORY_WEIGHT, DEFAULT_CPU_WEIGHT, DEFAULT_LOOP_WEIGHT]
  · norm_num [interpolate, OPTIMAL_SWEEP_INTERVAL, WORST_SWEEP_INTERVAL]

/-- C6 (amended): the cycle's pacing ratio is the clamp to [0,1] of the
*unweighted* mean of memory utilization taken directly and CPU / event-loop
utilization inverted (the declared weight constants 10 / 8.5 / 6.5 are never
passed); `sweepIntervalMs` interpolates linearly from 2000 ms at ratio 0 to
200 ms at ratio 1, and `sweepTimeBudgetMs` from 0 ms at ratio 0 to 40 ms at
ratio 1; the 15 ms default applies only when no metrics snapshot exists. -/
theorem claim_C6 (mem cpu lp : ℚ) :
    (sweepCycleParams (some ⟨mem, cpu, lp⟩)).sweepIntervalMs
      = 2000 + min 1 (max 0 ((mem + (1 - cpu) + (1 - lp)) / 3)) * (200 - 2000) ∧
    (sweepCycleParams (some ⟨mem, cpu, lp⟩)).sweepTimeBudgetMs
      = min 1 (max 0 ((mem + (1 - cpu) + (1 - lp)) / 3)) * 40 ∧
    sweepCycleParams none
      = { sweepIntervalMs := 2000, sweepTimeBudgetMs := 15 } := by
  refine ⟨?_, ?_, rfl⟩ <;>
  · simp only [sweepCycleParams, calculateOptimalSweepParams, interpolate,
      OPTIMAL_SWEEP_INTERVAL, WORST_SWEEP_INTERVAL, WORST_SWEEP_TIME_BUDGET]
    simp
    ring_nf
    try simp

/-- C7: when the total sweep weight is ≤ 0 and `n ≥ 1` instances are
registered, the cycle's per-batch quota is `MAX_KEYS_PER_BATCH / n`; batch
counters `k = 1 .. n` select the successive instances in registration order
(each selection succeeds), and the (n+1)-th call reports that no instance
remains. -/
theorem claim_C7 (instances : List CacheState) (w rand : ℚ)
    (hw : w ≤ 0) (hn : 1 ≤ instances.length) :
    sweepMaxKeysPerBatch w instances.length
      = MAX_KEYS_PER_BATCH / instances.length ∧
    (∀ k, 1 ≤ k → k ≤ instances.length →
      _selectInstanceToSweep instances w k rand = instances.get? (k - 1) ∧
      (instances.get? (k - 1)).isSome = true) ∧
    _selectInstanceToSweep instances w (instances.length + 1) rand = none := by
  refine ⟨?_, ?_, ?_⟩
  · simp [sweepMaxKeysPerBatch, hw]
  · intro k hk1 hk2
    constructor
    · simp [_selectInstanceToSweep, hw]
    · have hlt : k - 1 < instances.length := by omega
      rw [List.get?_eq_get hlt]
      rfl
  · simp only [_selectInstanceToSweep, if_pos hw]
    rw [List.get?_eq_none]
    omega

/-- C7 witness: two registered instances, total weight 0: quota 500, batch 1
selects the first instance, batch 2 the second, batch 3 reports none. -/
theorem claim_C7_witness :
    sweepMaxKeysPerBatch 0 2 = 500 ∧
    _selectInstanceToSweep [{ maxSize := some 5 }, { maxSize := some 9 }] 0 1 0
      = some { maxSize := some 5 } ∧
    _selectInstanceToSweep [{ maxSize := some 5 }, { maxSize := some 9 }] 0 2 0
      = some { maxSize := some 9 } ∧
    _selectInstanceToSweep [{ maxSize := some 5 }, { maxSize := some 9 }] 0 3 0
      = none := by
  have h := claim_C7 [{ maxSize := some 5 }, { maxSize := some 9 }] 0 0
    le_rfl (by decide)
  refine ⟨?_, ?_, ?_, ?_⟩
  · have h1 := h.1
    norm_num [MAX_KEYS_PER_BATCH] at h1
    exact h1
  · have h2 := (h.2.1 1 le_rfl (by decide)).1
    rw [h2]
    rfl
  · have h2 := (h.2.1 2 (by decide) (by decide)).1
    rw [h2]
    rfl
  · exact h.2.2

/-- C8: `createCache` (src/unnamed/part_002) stores `_autoStartSweep := false`
on the instance but still emits the `startSweep` call — the source invokes
`startSweep(state)` unconditionally on its last line, never testing the flag
(unlike the earlier revisions src/unnamed/part_001 / part_003 and
src/src/cache/create-cache.ts, which guard the call, and contrary to the
option's documentation in src/src/types.ts and the tests in
src/unnamed/part_023). -/
theorem claim_C8_bug :
    (createCache { _autoStartSweep := some false } 0).1._autoStartSweep = false ∧
    (createCache { _autoStartSweep := some false } 0).2
      = [CreateEffect.startSweepCall] := by
  exact ⟨rfl, rfl⟩

/-- C9 counterexample: `setOrUpdate` (src/src/cache/set.ts) only checks
finiteness of the TTLs.  A finite negative `ttlMs = −100` is accepted and
yields `expiresAt = now − 100 < now = createdAt`; a finite `staleTTLMs = 500`
below `ttlMs = 1000` is accepted and yields `0 < staleExpiresAt = 500 <
expiresAt = 1000`, breaking both halves of the data-model invariant. -/
theorem claim_C9_counterexample :
    setOrUpdate DEFAULT_TTL 0
      { key := some 1, value := some 5, ttlMs := some (-100),
        staleTTLMs := none } 1000
      = some { v := 5, e := 900, se := 0 } ∧
    (900:ℚ) < 1000 ∧
    setOrUpdate DEFAULT_TTL 0
      { key := some 1, value := some 5, ttlMs := some 1000,
        staleTTLMs := some 500 } 0
      = some { v := 5, e := 1000, se := 500 } ∧
    (500:ℚ) ≠ 0 ∧ (500:ℚ) < 1000 := by
  refine ⟨?_, by norm_num, ?_, by norm_num, by norm_num⟩
  · simp only [setOrUpdate, Option.getD]
    norm_num
  · simp only [setOrUpdate, Option.getD]
    norm_num

/-- C9 (amended): every entry stored by `setOrUpdate` satisfies the
data-model invariant for accepted inputs whose `ttlMs` is nonnegative and
whose effective stale TTL is either nonpositive (no stale window) or at
least `ttlMs`: then `expiresAt ≥ now` (the creation time) and
`staleExpiresAt` is 0 or ≥ `expiresAt`. -/
theorem claim_C9 (dTTL dST : ℚ) (input : CacheSetOrUpdateInput) (now : ℚ)
    (k v : ℕ) (ttl : ℚ)
    (hk : input.key = some k) (hv : input.value = some v)
    (ht : input.ttlMs = some ttl) (httl : 0 ≤ ttl)
    (hst : input.staleTTLMs.getD dST ≤ 0 ∨ ttl ≤ input.staleTTLMs.getD dST) :
    ∃ entry, setOrUpdate dTTL dST input now = some entry ∧
      now ≤ entry.e ∧ (entry.se = 0 ∨ entry.e ≤ entry.se) := by
  simp only [setOrUpdate, hk, hv, ht]
  refine ⟨_, rfl, by simp; linarith, ?_⟩
  by_cases hpos : 0 < input.staleTTLMs.getD dST
  · right
    simp only [if_pos hpos]
    cases hst with
    | inl h => linarith
    | inr h => simp; linarith
  · left
    simp [if_neg hpos]

/-- C9 witness: ttl 1000 with stale TTL 6000 at now = 50 stores an entry
with `e = 1050 ≥ 50` and `se = 6050 ≥ e`. -/
theorem claim_C9_witness :
    ∃ entry, setOrUpdate 0 0
      { key := some 1, value := some 2, ttlMs := some 1000,
        staleTTLMs := some 6000 } 50 = some entry ∧
      (50:ℚ) ≤ entry.e ∧ (entry.se = 0 ∨ entry.e ≤ entry.se) :=
  claim_C9 0 0
    { key := some 1, value := some 2, ttlMs := some 1000,
      staleTTLMs := some 6000 } 50 1 2 1000 rfl rfl rfl (by norm_num)
    (by norm_num)

lemma lookup_filter_ne (l : List (ℕ × CacheEntry)) (key : ℕ) :
    (l.filter fun kv => kv.1 ≠ key).lookup key = none := by
  simp
  exact fun x y _ hne hk => hne hk.symm

/-- C10: if the stored entry resolves to STALE at read time, `get` returns
its value even when the purge decision deletes it in the same call (the
entry is captured before deletion, and when `shouldPurge` is true the key is
gone from the resulting store); if it resolves to EXPIRED, the same call
returns `undefined` and removes the entry from the store. -/
theorem claim_C10 (s : CacheState) (key : ℕ) (pm : Option PurgeMode)
    (memUtil : Option ℚ) (now : ℚ) (entry : CacheEntry)
    (h : s.store.lookup key = some entry) :
    (computeEntryStatus s entry now = .stale →
      (Cache.get s key pm memUtil now).1 = some entry.value ∧
      (shouldPurge (pm.getD s.purgeStaleOnGet) s memUtil .get = true →
        (Cache.get s key pm memUtil now).2.store.lookup key = none)) ∧
    (computeEntryStatus s entry now = .expired →
      (Cache.get s key pm memUtil now).1 = none ∧
      (Cache.get s key pm memUtil now).2.store.lookup key = none) := by
  constructor
  · intro hst
    simp only [Cache.get, getWithStatus, h, hst]
    rw [if_neg (by decide : ¬ (ENTRY_STATUS.stale = ENTRY_STATUS.fresh))]
    refine ⟨rfl, ?_⟩
    intro hp
    rw [if_pos hp]
    simp only [deleteKey]
    exact lookup_filter_ne s.store key
  · intro hexp
    simp only [Cache.get, getWithStatus, h, hexp]
    rw [if_neg (by decide : ¬ (ENTRY_STATUS.expired = ENTRY_STATUS.fresh)),
      if_neg (by decide : ¬ (ENTRY_STATUS.expired = ENTRY_STATUS.stale))]
    refine ⟨rfl, ?_⟩
    simp only [deleteKey]
    exact lookup_filter_ne s.store key

/-- C10 witness: entry (ttl end 10, stale ceiling 100, value 7) with
`purgeStaleOnGet = true`: the stale read at 50 returns 7 while removing the
entry; the expired read at 500 returns nothing and removes the entry. -/
theorem claim_C10_witness :
    (Cache.get
      { store := [(1, ⟨0, 10, 100, 7, []⟩)], purgeStaleOnGet := .bool true }
      1 none none 50).1 = some 7 ∧
    ((Cache.get
      { store := [(1, ⟨0, 10, 100, 7, []⟩)], purgeStaleOnGet := .bool true }
      1 none none 50).2.store.lookup 1 = none) ∧
    (Cache.get
      { store := [(1, ⟨0, 10, 100, 7, []⟩)], purgeStaleOnGet := .bool true }
      1 none none 500).1 = none ∧
    ((Cache.get
      { store := [(1, ⟨0, 10, 100, 7, []⟩)], purgeStaleOnGet := .bool true }
      1 none none 500).2.store.lookup 1 = none) := by
  have hS := claim_C10
    { store := [(1, ⟨0, 10, 100, 7, []⟩)], purgeStaleOnGet := .bool true }
    1 none none 50 ⟨0, 10, 100, 7, []⟩ (by decide)
  have hE := claim_C10
    { store := [(1, ⟨0, 10, 100, 7, []⟩)], purgeStaleOnGet := .bool true }
    1 none none 500 ⟨0, 10, 100, 7, []⟩ (by decide)
  have h1 := hS.1 (by decide)
  have h2 := hE.2 (by decide)
  exact ⟨h1.1, h1.2 (by decide), h2.1, h2.2⟩
